import Mathlib

/-!
Shallow embedding of `homework.py` / `exceptions.py` (a Telegram
homework-status polling bot) and proofs about its specification claims.

JSON-like Python values are modelled by `PyVal`; Python exceptions that can
flow through the program by `PyError`; each Python function of the source is
translated to a Lean function of the same name.  The orchestrator loop body
(`main`'s `while True` cycle) is `mainCycle`, a pure step function over an
explicit state, parameterised by the cycle's environment (the HTTP outcome
and the Telegram delivery outcomes).
-/

/-- A single-quote character as a string (used by Python `repr`/`str(KeyError)`). -/
def sglq : String := String.singleton (Char.ofNat 39)

/-- JSON-like Python values as they occur in API responses. -/
inductive PyVal where
  | str (s : String)
  | int (n : Int)
  | bool (b : Bool)
  | none
  | list (xs : List PyVal)
  | dict (entries : List (String × PyVal))

/-- First-match association-list lookup, modelling Python `dict` access
(Python dicts have unique keys, so first-match is exact). -/
def dictGet (entries : List (String × PyVal)) (key : String) : Option PyVal :=
  (entries.find? (fun p => p.1 = key)).map (·.2)

/-- Python `response.get(key, default)` support: `dict.get` on a `PyVal`
that is known to be a dict at the call site. -/
def PyVal.get (v : PyVal) (key : String) : Option PyVal :=
  match v with
  | .dict es => dictGet es key
  | _ => Option.none

/-- Python type name of a value (used in runtime `TypeError` messages). -/
def pyTypeName : PyVal → String
  | .str _ => "str"
  | .int _ => "int"
  | .bool _ => "bool"
  | .none => "NoneType"
  | .list _ => "list"
  | .dict _ => "dict"

mutual
/-- Python `repr` of a value (strings quoted), as used inside container reprs
and for f-string interpolation of containers. -/
def pyRepr : PyVal → String
  | .str s => sglq ++ s ++ sglq
  | .int n => toString n
  | .bool b => if b then "True" else "False"
  | .none => "None"
  | .list xs => "[" ++ String.intercalate ", " (pyReprList xs) ++ "]"
  | .dict es => "\x7b" ++ String.intercalate ", " (pyReprEntries es) ++ "\x7d"

def pyReprList : List PyVal → List String
  | [] => []
  | x :: xs => pyRepr x :: pyReprList xs

def pyReprEntries : List (String × PyVal) → List String
  | [] => []
  | (k, v) :: es => (sglq ++ k ++ sglq ++ ": " ++ pyRepr v) :: pyReprEntries es
end

/-- Python `str` of a value (top-level strings unquoted), as used by f-string
interpolation. -/
def pyStr : PyVal → String
  | .str s => s
  | v => pyRepr v

/-- The exception kinds that can flow through the program: the three custom
exceptions of `exceptions.py` plus the builtin ones the source raises. -/
inductive PyError where
  | typeError (msg : String)
  | keyError (msg : String)
  | valueError (msg : String)
  | connectionError (msg : String)
  | apiRequestError (msg : String)
  | apiResponseError (msg : String)
  | missingEnvError (msg : String)
  | apiTelegramError (msg : String)
deriving DecidableEq

/-- Python `str(exception)`: the bare message, except `KeyError`, whose
`str` is the `repr` of its argument (the message wrapped in single quotes). -/
def errorStr : PyError → String
  | .keyError m => sglq ++ m ++ sglq
  | .typeError m => m
  | .valueError m => m
  | .connectionError m => m
  | .apiRequestError m => m
  | .apiResponseError m => m
  | .missingEnvError m => m
  | .apiTelegramError m => m

/-- `HOMEWORK_VERDICTS`: the closed three-entry verdict table of the source. -/
def HOMEWORK_VERDICTS : List (String × String) :=
  [("approved", "Работа проверена: ревьюеру всё понравилось. Ура!"),
   ("reviewing", "Работа взята на проверку ревьюером."),
   ("rejected", "Работа проверена: у ревьюера есть замечания.")]

/-- `ENDPOINT` constant of the source. -/
def ENDPOINT : String :=
  "https://practicum.yandex.ru/api/user_api/homework_statuses/"

/-- `check_response(response)`: validates the envelope shape and returns the
`homeworks` list.  Translated line by line from `homework.py` lines 160-171. -/
def check_response (response : PyVal) : Except PyError (List PyVal) :=
  match response with
  | .dict es =>
    match dictGet es "homeworks" with
    | Option.none =>
      .error (.apiResponseError "В ответе API отсутствует ключ \"homeworks\"")
    | Option.some homeworks =>
      match homeworks with
      | .list xs => .ok xs
      | _ => .error (.typeError "Поле \"homeworks\" должно быть списком")
  | _ => .error (.typeError "Ответ API должен быть словарём")

/-- Python `key in value` for a string key: key membership for dicts, element
membership for lists, substring test for strings, `TypeError` otherwise. -/
def pyContainsStr (key : String) (v : PyVal) : Except PyError Bool :=
  match v with
  | .dict es => .ok (es.any fun p => p.1 = key)
  | .list xs =>
    .ok (xs.any fun x => match x with | .str s => s = key | _ => false)
  | .str s => .ok (decide (List.IsInfix key.data s.data))
  | _ => .error (.typeError ("argument of type " ++ sglq ++ pyTypeName v ++ sglq
      ++ " is not iterable"))

/-- Python `value[key]` for a string key. -/
def pySubscript (v : PyVal) (key : String) : Except PyError PyVal :=
  match v with
  | .dict es =>
    match dictGet es key with
    | Option.some x => .ok x
    | Option.none => .error (.keyError key)
  | .str _ => .error (.typeError "string indices must be integers")
  | .list _ => .error (.typeError "list indices must be integers or slices, not str")
  | _ => .error (.typeError (sglq ++ pyTypeName v ++ sglq ++ " object is not subscriptable"))

/-- Python `status in HOMEWORK_VERDICTS` fused with the subsequent
`HOMEWORK_VERDICTS[status]` lookup: `some verdict` when the (hashable) value
is a key of the table, `none` when it is hashable but not a key, and
`TypeError` for unhashable values. -/
def verdictLookup : PyVal → Except PyError (Option String)
  | .str s => .ok ((HOMEWORK_VERDICTS.find? (fun p => p.1 = s)).map (·.2))
  | .list _ => .error (.typeError ("unhashable type: " ++ sglq ++ "list" ++ sglq))
  | .dict _ => .error (.typeError ("unhashable type: " ++ sglq ++ "dict" ++ sglq))
  | _ => .ok Option.none

/-- `parse_status(homework)`: extracts the notification message from one
homework record.  Translated line by line from `homework.py` lines 174-206,
with Python's exception propagation written as explicit `match` on each
fallible step. -/
def parse_status (homework : PyVal) : Except PyError String :=
  match pyContainsStr "homework_name" homework with
  | .error e => .error e
  | .ok hasName =>
    if !hasName then
      .error (.keyError
        "В информации о домашней работе отсутствует ключ \"homework_name\"")
    else
      match pyContainsStr "status" homework with
      | .error e => .error e
      | .ok hasStatus =>
        if !hasStatus then
          .error (.keyError
            "В информации о домашней работе отсутствует ключ \"status\"")
        else
          match pySubscript homework "homework_name" with
          | .error e => .error e
          | .ok homework_name =>
            match pySubscript homework "status" with
            | .error e => .error e
            | .ok homework_status =>
              match verdictLookup homework_status with
              | .error e => .error e
              | .ok Option.none =>
                .error (.valueError
                  ("Недокументированный статус работы: " ++ pyStr homework_status))
              | .ok (Option.some verdict) =>
                .ok ("Изменился статус проверки работы \"" ++ pyStr homework_name
                  ++ "\". " ++ verdict)

/-- The member table of Python's `http.HTTPStatus` enumeration (code and
reason phrase), as used by `HTTPStatus(code).phrase` in `get_api_answer`.
A code outside this table makes `HTTPStatus(code)` raise `ValueError`. -/
def HTTP_STATUS_PHRASES : List (Nat × String) :=
  [(100, "Continue"), (101, "Switching Protocols"), (102, "Processing"),
   (103, "Early Hints"),
   (200, "OK"), (201, "Created"), (202, "Accepted"),
   (203, "Non-Authoritative Information"), (204, "No Content"),
   (205, "Reset Content"), (206, "Partial Content"), (207, "Multi-Status"),
   (208, "Already Reported"), (226, "IM Used"),
   (300, "Multiple Choices"), (301, "Moved Permanently"), (302, "Found"),
   (303, "See Other"), (304, "Not Modified"), (305, "Use Proxy"),
   (307, "Temporary Redirect"), (308, "Permanent Redirect"),
   (400, "Bad Request"), (401, "Unauthorized"), (402, "Payment Required"),
   (403, "Forbidden"), (404, "Not Found"), (405, "Method Not Allowed"),
   (406, "Not Acceptable"), (407, "Proxy Authentication Required"),
   (408, "Request Timeout"), (409, "Conflict"), (410, "Gone"),
   (411, "Length Required"), (412, "Precondition Failed"),
   (413, "Request Entity Too Large"), (414, "Request-URI Too Long"),
   (415, "Unsupported Media Type"), (416, "Requested Range Not Satisfiable"),
   (417, "Expectation Failed"), (418, "I" ++ sglq ++ "m a Teapot"),
   (421, "Misdirected Request"), (422, "Unprocessable Entity"),
   (423, "Locked"), (424, "Failed Dependency"), (425, "Too Early"),
   (426, "Upgrade Required"), (428, "Precondition Required"),
   (429, "Too Many Requests"), (431, "Request Header Fields Too Large"),
   (451, "Unavailable For Legal Reasons"),
   (500, "Internal Server Error"), (501, "Not Implemented"),
   (502, "Bad Gateway"), (503, "Service Unavailable"), (504, "Gateway Timeout"),
   (505, "HTTP Version Not Supported"), (506, "Variant Also Negotiates"),
   (507, "Insufficient Storage"), (508, "Loop Detected"), (510, "Not Extended"),
   (511, "Network Authentication Required")]

/-- `HTTPStatus(code).phrase`: `some phrase` for enumeration members,
`none` when the lookup would raise `ValueError`. -/
def httpStatusPhrase (code : Nat) : Option String :=
  (HTTP_STATUS_PHRASES.find? (fun p => p.1 = code)).map (·.2)

/-- One HTTP response as seen by `get_api_answer`: status line data, raw body
text, and the deserialized JSON body (`response.json()`; the model assumes
the body is valid JSON). -/
structure HttpResponse where
  status_code : Nat
  reason : String
  text : String
  jsonBody : PyVal

/-- The outcome of the one `requests.get` call of a cycle: either the
transport layer fails with a `RequestException` (carrying its rendered
message) or an HTTP response arrives. -/
inductive FetchOutcome where
  | transportError (cause : String)
  | response (r : HttpResponse)

/-- The `request_params` dict of `get_api_answer`, rendered as Python does
when interpolating it into messages. -/
def requestParamsStr (timestamp : PyVal) : String :=
  pyStr (.dict [("from_date", timestamp)])

/-- The module-level `HEADERS` dict rendered by f-string interpolation. -/
def headersStr (token : String) : String :=
  pyStr (.dict [("Authorization", .str ("OAuth " ++ token))])

/-- The `ConnectionError` message of `get_api_answer` (source lines 130-135;
note the source omits the separator before the headers fragment). -/
def connectionErrorMsg (token : String) (timestamp : PyVal) (cause : String) : String :=
  "Ошибка подключения к API: " ++ cause ++ ". URL: " ++ ENDPOINT
    ++ ", Параметры: " ++ requestParamsStr timestamp
    ++ "Заголовки: " ++ headersStr token

/-- The `APIRequestError` message of `get_api_answer` (source lines 138-143;
note the missing space after the comma following the parenthesis). -/
def apiRequestErrorMsg (code : Nat) (phrase reason text : String) : String :=
  "Эндпоинт " ++ ENDPOINT ++ " недоступен. Код ответа: " ++ toString code
    ++ " (" ++ phrase ++ "),Причина: " ++ reason ++ ", Текст ответа: " ++ text

/-- `get_api_answer(timestamp)`: wraps transport failures in
`ConnectionError`, non-200 statuses in `APIRequestError` (via the
`HTTPStatus` phrase lookup, which itself raises `ValueError` on codes
outside the enumeration), and returns the deserialized body on success.
Translated from `homework.py` lines 102-145. -/
def get_api_answer (token : String) (timestamp : PyVal) (outcome : FetchOutcome) :
    Except PyError PyVal :=
  match outcome with
  | .transportError cause =>
    .error (.connectionError (connectionErrorMsg token timestamp cause))
  | .response r =>
    if r.status_code ≠ 200 then
      match httpStatusPhrase r.status_code with
      | Option.none =>
        .error (.valueError (toString r.status_code ++ " is not a valid HTTPStatus"))
      | Option.some phrase =>
        .error (.apiRequestError (apiRequestErrorMsg r.status_code phrase r.reason r.text))
    else
      .ok r.jsonBody

/-- The outcome of one `bot.send_message` call, chosen by the environment:
either the message goes through or telebot raises its provider-specific
`ApiTelegramException`. -/
inductive SendOutcome where
  | sent
  | telegramError (msg : String)

/-- The raw `bot.send_message(TELEGRAM_CHAT_ID, message)` call with its
possible exception made explicit. -/
def botSend (outcome : SendOutcome) : Except PyError Unit :=
  match outcome with
  | .sent => .ok ()
  | .telegramError m => .error (.apiTelegramError m)

/-- `send_message(bot, message)` with the exception flow explicit: the
`try/except ApiTelegramException` of source lines 93-99 converts the
provider exception to `False` and success to `True`. -/
def send_messageE (outcome : SendOutcome) : Except PyError Bool :=
  match botSend outcome with
  | .error (.apiTelegramError _) => .ok false
  | .error e => .error e
  | .ok _ => .ok true

/-- `send_message(bot, message)` as the boolean it always evaluates to
(its only possible exception is caught inside the function). -/
def send_message (outcome : SendOutcome) : Bool :=
  match outcome with
  | .sent => true
  | .telegramError _ => false

/-- The mutable state of `main`'s loop: the `timestamp` cursor (a `PyVal`
because `response.get('current_date', timestamp)` stores whatever the
response carried) and the single `last_message` dedup slot. -/
structure BotState where
  timestamp : PyVal
  last_message : String

/-- The environment of one cycle: the outcome of the HTTP fetch and, for
each message text, the outcome delivery of such a message would have. -/
structure CycleEnv where
  fetch : FetchOutcome
  send : String → SendOutcome

/-- The `try` block of one loop iteration of `main` (source lines 217-232):
fetch, validate, on empty homeworks `continue` (skipping the cursor
update), else extract, conditionally deliver, update `last_message` only on
delivered, then refresh `timestamp` with fallback.  Returns the new state
and the list of messages passed to `send_message`. -/
def tryBody (token : String) (env : CycleEnv) (st : BotState) :
    Except PyError (BotState × List String) :=
  match get_api_answer token st.timestamp env.fetch with
  | .error e => .error e
  | .ok response =>
    match check_response response with
    | .error e => .error e
    | .ok [] => .ok (st, [])
    | .ok (homework :: _) =>
      match parse_status homework with
      | .error e => .error e
      | .ok message =>
        let (last, sent) :=
          if message ≠ st.last_message then
            if send_message (env.send message) then (message, [message])
            else (st.last_message, [message])
          else (st.last_message, ([] : List String))
        .ok (⟨(response.get "current_date").getD st.timestamp, last⟩, sent)

/-- The `except Exception` handler of `main` (source lines 234-239): compose
the failure message, and if it differs from `last_message`, attempt delivery
and update `last_message` only when delivery succeeded. -/
def handleError (env : CycleEnv) (st : BotState) (e : PyError) :
    BotState × List String :=
  let error_message := "Сбой в работе программы: " ++ errorStr e
  if error_message ≠ st.last_message then
    if send_message (env.send error_message) then
      (⟨st.timestamp, error_message⟩, [error_message])
    else (st, [error_message])
  else (st, [])

/-- One full iteration of `main`'s `while True` loop, ending at the
unconditional `finally: time.sleep(RETRY_PERIOD)`.  Returns the state
carried into the next iteration and the messages whose delivery was
attempted this cycle, in order. -/
def mainCycle (token : String) (env : CycleEnv) (st : BotState) :
    BotState × List String :=
  match tryBody token env st with
  | .ok r => r
  | .error e => handleError env st e

/-- `handleError` with the exception flow of the inner `send_message` call
kept explicit, to reason about which exceptions can escape the handler. -/
def handleErrorE (env : CycleEnv) (st : BotState) (e : PyError) :
    Except PyError (BotState × List String) :=
  let error_message := "Сбой в работе программы: " ++ errorStr e
  if error_message ≠ st.last_message then
    match send_messageE (env.send error_message) with
    | .error e2 => .error e2
    | .ok true => .ok (⟨st.timestamp, error_message⟩, [error_message])
    | .ok false => .ok (st, [error_message])
  else .ok (st, [])

/-- `tryBody` with the exception flow of its `send_message` call explicit. -/
def tryBodyE (token : String) (env : CycleEnv) (st : BotState) :
    Except PyError (BotState × List String) :=
  match get_api_answer token st.timestamp env.fetch with
  | .error e => .error e
  | .ok response =>
    match check_response response with
    | .error e => .error e
    | .ok [] => .ok (st, [])
    | .ok (homework :: _) =>
      match parse_status homework with
      | .error e => .error e
      | .ok message =>
        match (if message ≠ st.last_message then
                match send_messageE (env.send message) with
                | .error e => .error e
                | .ok true => .ok (message, [message])
                | .ok false => .ok (st.last_message, [message])
              else .ok (st.last_message, ([] : List String)) :
              Except PyError (String × List String)) with
        | .error e => .error e
        | .ok (last, sent) =>
          .ok (⟨(response.get "current_date").getD st.timestamp, last⟩, sent)

/-- One loop iteration with every exception of the cycle visible: the single
`except Exception` boundary catches whatever `tryBodyE` raises; a value in
the `.error` component would be an exception escaping the loop. -/
def mainCycleE (token : String) (env : CycleEnv) (st : BotState) :
    Except PyError (BotState × List String) :=
  match tryBodyE token env st with
  | .ok r => .ok r
  | .error e => handleErrorE env st e

/-- Run the loop through a finite prefix of cycles, accumulating every
message whose delivery was attempted. -/
def runCycles (token : String) : List CycleEnv → BotState → BotState × List String
  | [], st => (st, [])
  | env :: envs, st =>
    let r := mainCycle token env st
    let rest := runCycles token envs r.1
    (rest.1, r.2 ++ rest.2)

/-- The two-slot orchestrator state of the specification (§3 "Notification
State", §4.6): the cursor plus independent success and failure dedup
slots. -/
structure SpecState where
  cursor : PyVal
  lastSuccess : String
  lastError : String

/-- The orchestrator cycle exactly as the specification words it (§4.6
steps a-f and step 3), over the same collaborator outcomes as `mainCycle`:
fetch, validate, empty means skip to the cursor refresh, else extract and
compare against the *success* slot only, update that slot only on positive
delivery; refresh the cursor unconditionally on non-exception cycles; an
exception is compared against the *failure* slot and that slot updates
unconditionally after the delivery attempt. -/
def specCycle (token : String) (env : CycleEnv) (st : SpecState) :
    SpecState × List String :=
  match (match get_api_answer token st.cursor env.fetch with
        | .error e => .error e
        | .ok response =>
          match check_response response with
          | .error e => .error e
          | .ok [] =>
            .ok (SpecState.mk ((response.get "current_date").getD st.cursor)
              st.lastSuccess st.lastError, ([] : List String))
          | .ok (homework :: _) =>
            match parse_status homework with
            | .error e => .error e
            | .ok message =>
              let (lastS, sent) :=
                if message ≠ st.lastSuccess then
                  if send_message (env.send message) then (message, [message])
                  else (st.lastSuccess, [message])
                else (st.lastSuccess, ([] : List String))
              .ok (SpecState.mk ((response.get "current_date").getD st.cursor)
                lastS st.lastError, sent) :
        Except PyError (SpecState × List String)) with
  | .ok r => r
  | .error e =>
    let error_message := "Сбой в работе программы: " ++ errorStr e
    if error_message ≠ st.lastError then
      let _ := send_message (env.send error_message)
      (⟨st.cursor, st.lastSuccess, error_message⟩, [error_message])
    else (⟨st.cursor, st.lastSuccess, st.lastError⟩, [])

/-- Run the specification's orchestrator through a finite prefix of
cycles. -/
def runCyclesSpec (token : String) : List CycleEnv → SpecState → SpecState × List String
  | [], st => (st, [])
  | env :: envs, st =>
    let r := specCycle token env st
    let rest := runCyclesSpec token envs r.1
    (rest.1, r.2 ++ rest.2)

/-! ### Helper lemmas -/

theorem dictGet_any (es : List (String × PyVal)) (k : String) :
    (es.any fun p => decide (p.1 = k)) = (dictGet es k).isSome := by
  induction es with
  | nil => rfl
  | cons p es ih =>
    by_cases h : p.1 = k
    · simp [dictGet, List.find?, h]
    · simpa [dictGet, List.find?, h] using ih

/-! ### Claim C7: shape validation of the response envelope -/

/-- C7: `check_response` fails with a type error on a non-dict envelope,
with a response-shape error (`APIResponseError`, a kind distinct from
`TypeError`) when `homeworks` is absent, with a type error when `homeworks`
is not a list, and on success returns the homeworks list unmodified in its
original order. -/
theorem claimC7_check_response :
    (∀ v : PyVal, (∀ es, v ≠ .dict es) →
      check_response v = .error (.typeError "Ответ API должен быть словарём")) ∧
    (∀ es, dictGet es "homeworks" = Option.none →
      check_response (.dict es)
        = .error (.apiResponseError "В ответе API отсутствует ключ \"homeworks\"")) ∧
    (∀ es w, dictGet es "homeworks" = Option.some w → (∀ xs, w ≠ .list xs) →
      check_response (.dict es)
        = .error (.typeError "Поле \"homeworks\" должно быть списком")) ∧
    (∀ es xs, dictGet es "homeworks" = Option.some (.list xs) →
      check_response (.dict es) = .ok xs) ∧
    (∀ m m', PyError.apiResponseError m ≠ PyError.typeError m') := by
  refine ⟨?_, ?_, ?_, ?_, ?_⟩
  · intro v h
    cases v with
    | dict es => exact absurd rfl (h es)
    | str s => rfl
    | int n => rfl
    | bool b => rfl
    | none => rfl
    | list xs => rfl
  · intro es h
    simp [check_response, h]
  · intro es w hw hnl
    cases w with
    | list xs => exact absurd rfl (hnl xs)
    | str s => simp [check_response, hw]
    | int n => simp [check_response, hw]
    | bool b => simp [check_response, hw]
    | none => simp [check_response, hw]
    | dict es2 => simp [check_response, hw]
  · intro es xs hw
    simp [check_response, hw]
  · intro m m' h
    exact PyError.noConfusion h

/-- C7 witness: the four shape cases at concrete envelopes. -/
theorem claimC7_witness :
    check_response (.list []) = .error (.typeError "Ответ API должен быть словарём") ∧
    check_response (.dict [("foo", .int 1)])
      = .error (.apiResponseError "В ответе API отсутствует ключ \"homeworks\"") ∧
    check_response (.dict [("homeworks", .int 7)])
      = .error (.typeError "Поле \"homeworks\" должно быть списком") ∧
    check_response (.dict [("homeworks", .list [.int 1, .str "x"])])
      = .ok [.int 1, .str "x"] := by
  refine ⟨?_, ?_, ?_, ?_⟩
  · exact claimC7_check_response.1 (.list []) (fun es h => PyVal.noConfusion h)
  · exact claimC7_check_response.2.1 _ rfl
  · exact claimC7_check_response.2.2.1 _ (.int 7) rfl (fun xs h => PyVal.noConfusion h)
  · exact claimC7_check_response.2.2.2.1 _ _ rfl

/-! ### Claim C6: status extraction -/

/-- C6: on a submission record (a dict, per the spec's data model, with the
wire field `homework_name` playing the spec's `name`), `parse_status` fails
with a `KeyError` naming the missing field when `homework_name` or `status`
is absent, fails with a `ValueError` (unknown-status error) when the status
string is none of `approved`/`reviewing`/`rejected`, and otherwise returns
the fixed-format sentence built from the closed three-entry
`HOMEWORK_VERDICTS` table (the spec's English sentence "Review status
changed for work ..." is its gloss of the source's fixed Russian template);
the table has no default for unknown keys. -/
theorem claimC6_parse_status (es : List (String × PyVal)) :
    (dictGet es "homework_name" = Option.none →
      parse_status (.dict es) = .error (.keyError
        "В информации о домашней работе отсутствует ключ \"homework_name\"")) ∧
    (∀ nv, dictGet es "homework_name" = Option.some nv →
      dictGet es "status" = Option.none →
      parse_status (.dict es) = .error (.keyError
        "В информации о домашней работе отсутствует ключ \"status\"")) ∧
    (∀ nv s, dictGet es "homework_name" = Option.some nv →
      dictGet es "status" = Option.some (.str s) →
      ¬(s = "approved" ∨ s = "reviewing" ∨ s = "rejected") →
      parse_status (.dict es) = .error (.valueError
        ("Недокументированный статус работы: " ++ s))) ∧
    (∀ nv s verdict, dictGet es "homework_name" = Option.some nv →
      dictGet es "status" = Option.some (.str s) →
      (HOMEWORK_VERDICTS.find? (fun p => p.1 = s)).map (·.2) = Option.some verdict →
      parse_status (.dict es) = .ok
        ("Изменился статус проверки работы \"" ++ pyStr nv ++ "\". " ++ verdict)) := by
  refine ⟨?_, ?_, ?_, ?_⟩
  · intro h
    have hany := dictGet_any es "homework_name"
    rw [h] at hany
    simp [parse_status, pyContainsStr, hany]
  · intro nv hn hs
    have hany := dictGet_any es "homework_name"
    have hany2 := dictGet_any es "status"
    rw [hn] at hany; rw [hs] at hany2
    simp [parse_status, pyContainsStr, hany, hany2]
  · intro nv s hn hs hunk
    have hany := dictGet_any es "homework_name"
    have hany2 := dictGet_any es "status"
    rw [hn] at hany; rw [hs] at hany2
    push_neg at hunk
    obtain ⟨h1, h2, h3⟩ := hunk
    have e1 : ¬("approved" = s) := fun h => h1 h.symm
    have e2 : ¬("reviewing" = s) := fun h => h2 h.symm
    have e3 : ¬("rejected" = s) := fun h => h3 h.symm
    have hfind : (HOMEWORK_VERDICTS.find? (fun p => p.1 = s)).map (·.2) = Option.none := by
      simp [HOMEWORK_VERDICTS, List.find?, e1, e2, e3]
    simp [parse_status, pyContainsStr, hany, hany2, pySubscript, hn, hs,
      verdictLookup, hfind, pyStr]
  · intro nv s verdict hn hs hfind
    have hany := dictGet_any es "homework_name"
    have hany2 := dictGet_any es "status"
    rw [hn] at hany; rw [hs] at hany2
    simp [parse_status, pyContainsStr, hany, hany2, pySubscript, hn, hs,
      verdictLookup, hfind]

/-- C6 witness: the four extraction cases at concrete records (including the
spec's own example of an unknown status, `"archived"`). -/
theorem claimC6_witness :
    parse_status (.dict [("status", .str "approved")])
      = .error (.keyError
        "В информации о домашней работе отсутствует ключ \"homework_name\"") ∧
    parse_status (.dict [("homework_name", .str "lab1")])
      = .error (.keyError
        "В информации о домашней работе отсутствует ключ \"status\"") ∧
    parse_status (.dict [("homework_name", .str "lab1"), ("status", .str "archived")])
      = .error (.valueError "Недокументированный статус работы: archived") ∧
    parse_status (.dict [("homework_name", .str "lab1"), ("status", .str "rejected")])
      = .ok "Изменился статус проверки работы \"lab1\". Работа проверена: у ревьюера есть замечания." := by
  refine ⟨?_, ?_, ?_, ?_⟩
  · exact (claimC6_parse_status _).1 rfl
  · exact (claimC6_parse_status _).2.1 (.str "lab1") rfl rfl
  · exact (claimC6_parse_status _).2.2.1 (.str "lab1") "archived" rfl rfl (by decide)
  · exact (claimC6_parse_status _).2.2.2 (.str "lab1") "rejected" _ rfl rfl rfl

/-! ### More helper lemmas for the cycle -/

theorem handleError_timestamp (env : CycleEnv) (st : BotState) (e : PyError) :
    (handleError env st e).1.timestamp = st.timestamp := by
  simp only [handleError]
  split
  · split <;> rfl
  · rfl

theorem send_messageE_eq (o : SendOutcome) :
    send_messageE o = .ok (send_message o) := by
  cases o <;> rfl

/-! ### Claim C10: element-opacity of envelope validation -/

/-- C10: any dict envelope whose `homeworks` key holds a list passes
validation and yields back that exact list whatever its elements are, and
the cycle's behaviour depends only on the head of `homeworks` (plus the
cursor field): record shape is examined only by `parse_status`, applied to
the first element alone. -/
theorem claimC10_elements_opaque :
    (∀ es xs, dictGet es "homeworks" = Option.some (.list xs) →
      check_response (.dict es) = .ok xs) ∧
    (∀ (token : String) (send : String → SendOutcome) (st : BotState)
        (reason text : String) (resp1 resp2 : PyVal) (h : PyVal)
        (t1 t2 : List PyVal),
      check_response resp1 = .ok (h :: t1) →
      check_response resp2 = .ok (h :: t2) →
      resp1.get "current_date" = resp2.get "current_date" →
      mainCycle token ⟨.response ⟨200, reason, text, resp1⟩, send⟩ st
        = mainCycle token ⟨.response ⟨200, reason, text, resp2⟩, send⟩ st) := by
  constructor
  · intro es xs hw
    simp [check_response, hw]
  · intro token send st reason text resp1 resp2 h t1 t2 hc1 hc2 hget
    simp only [mainCycle, tryBody, get_api_answer]
    norm_num
    rw [hc1, hc2]
    cases hp : parse_status h with
    | error e => simp [hp, handleError]
    | ok m => simp [hp, hget]

/-- C10 witness: a list with one well-formed record and assorted junk
elements (non-dict records included) passes validation verbatim, and two
envelopes differing only in the junk tail drive the cycle identically. -/
theorem claimC10_witness :
    check_response (.dict [("homeworks",
        .list [.dict [("homework_name", .str "lab1"), ("status", .str "approved")],
               .int 3, .str "junk", .list []])])
      = .ok [.dict [("homework_name", .str "lab1"), ("status", .str "approved")],
             .int 3, .str "junk", .list []] ∧
    mainCycle "T" ⟨.response ⟨200, "OK", "",
        .dict [("homeworks",
          .list [.dict [("homework_name", .str "lab1"), ("status", .str "approved")],
                 .int 3])]⟩, fun _ => .sent⟩ ⟨.int 1000, ""⟩
      = mainCycle "T" ⟨.response ⟨200, "OK", "",
        .dict [("homeworks",
          .list [.dict [("homework_name", .str "lab1"), ("status", .str "approved")],
                 .str "junk", .none])]⟩, fun _ => .sent⟩ ⟨.int 1000, ""⟩ := by
  constructor
  · exact claimC10_elements_opaque.1 _ _ rfl
  · exact claimC10_elements_opaque.2 "T" (fun _ => .sent) ⟨.int 1000, ""⟩
      "OK" "" _ _ _ _ _ rfl rfl rfl

/-! ### Claim C8: cursor retention when the refresh field is absent -/

/-- C8: on any cycle whose response passes validation and lacks
`current_date`, the cursor keeps its prior value, whether the homeworks
list is empty, its head extracts, or extraction raises. -/
theorem claimC8_cursor_retention (token : String) (env : CycleEnv)
    (st : BotState) (resp : PyVal) (hws : List PyVal)
    (hf : get_api_answer token st.timestamp env.fetch = .ok resp)
    (hc : check_response resp = .ok hws)
    (hnone : resp.get "current_date" = Option.none) :
    (mainCycle token env st).1.timestamp = st.timestamp := by
  simp only [mainCycle, tryBody, hf, hc]
  cases hws with
  | nil => rfl
  | cons hw rest =>
    cases hp : parse_status hw with
    | error e => simpa [hp] using handleError_timestamp env st e
    | ok m => simp [hp, hnone]

/-- C8 witness: a response with homeworks but no `current_date` leaves the
cursor at its prior value 1000. -/
theorem claimC8_witness :
    (mainCycle "T" ⟨.response ⟨200, "OK", "",
        .dict [("homeworks", .list [.dict [("homework_name", .str "lab1"),
          ("status", .str "approved")]])]⟩, fun _ => .sent⟩
      ⟨.int 1000, ""⟩).1.timestamp = .int 1000 := by
  exact claimC8_cursor_retention "T" _ ⟨.int 1000, ""⟩ _ _ rfl rfl rfl

/-! ### Claim C9: failure kinds of the fetch operation -/

/-- The outcome classification asserted by the spec for `get_api_answer`:
a connection-error, a request-error, or a successful value — the spec's
"exactly two failure kinds". -/
def fetchOutcomeClaimed : Except PyError PyVal → Bool
  | .error (.connectionError _) => true
  | .error (.apiRequestError _) => true
  | .ok _ => true
  | .error _ => false

/-- C9 counterexample: a non-success status code outside the standard
`HTTPStatus` enumeration (599) is not wrapped into a request-error: the
`HTTPStatus(response.status_code).phrase` lookup inside the f-string raises
`ValueError` before `APIRequestError` is ever constructed, so the fetch
surfaces a third failure kind. -/
theorem claimC9_counterexample :
    get_api_answer "T" (.int 1000)
        (.response ⟨599, "Network Connect Timeout Error", "busy", .none⟩)
      = .error (.valueError "599 is not a valid HTTPStatus") ∧
    fetchOutcomeClaimed (get_api_answer "T" (.int 1000)
        (.response ⟨599, "Network Connect Timeout Error", "busy", .none⟩))
      = false := by
  exact ⟨rfl, rfl⟩

/-- C9 as amended: transport failures are wrapped into a connection-error
carrying the original cause, a non-success status code *belonging to the
standard `HTTPStatus` enumeration* is wrapped into a request-error carrying
the status code, both reason phrases (the enumeration's and the response's)
and the response body text, a non-success code outside the enumeration
raises `ValueError` from the phrase lookup instead, and a 200 response
yields the deserialized body with no schema enforcement. -/
theorem claimC9_get_api_answer (token : String) (ts : PyVal) :
    (∀ cause, get_api_answer token ts (.transportError cause)
        = .error (.connectionError (connectionErrorMsg token ts cause)) ∧
      ∃ pre post, connectionErrorMsg token ts cause = pre ++ cause ++ post) ∧
    (∀ r : HttpResponse, r.status_code ≠ 200 →
      ∀ phrase, httpStatusPhrase r.status_code = Option.some phrase →
        get_api_answer token ts (.response r)
          = .error (.apiRequestError
              (apiRequestErrorMsg r.status_code phrase r.reason r.text)) ∧
        ∃ p1 p2 p3 p4, apiRequestErrorMsg r.status_code phrase r.reason r.text
          = p1 ++ toString r.status_code ++ p2 ++ phrase ++ p3 ++ r.reason
              ++ p4 ++ r.text) ∧
    (∀ r : HttpResponse, r.status_code ≠ 200 →
      httpStatusPhrase r.status_code = Option.none →
      get_api_answer token ts (.response r)
        = .error (.valueError (toString r.status_code
            ++ " is not a valid HTTPStatus"))) ∧
    (∀ r : HttpResponse, r.status_code = 200 →
      get_api_answer token ts (.response r) = .ok r.jsonBody) := by
  refine ⟨?_, ?_, ?_, ?_⟩
  · intro cause
    refine ⟨rfl, "Ошибка подключения к API: ",
      ". URL: " ++ ENDPOINT ++ ", Параметры: " ++ requestParamsStr ts
        ++ "Заголовки: " ++ headersStr token, ?_⟩
    simp [connectionErrorMsg, String.append_assoc]
  · intro r hne phrase hph
    constructor
    · simp [get_api_answer, hne, hph]
    · refine ⟨"Эндпоинт " ++ ENDPOINT ++ " недоступен. Код ответа: ",
        " (", "),Причина: ", ", Текст ответа: ", ?_⟩
      simp [apiRequestErrorMsg, String.append_assoc]
  · intro r hne hph
    simp [get_api_answer, hne, hph]
  · intro r h200
    simp [get_api_answer, h200]

/-- C9 witness: the four fetch outcomes at concrete inputs — a transport
failure, a 404, the out-of-enumeration 599, and a 200 success. -/
theorem claimC9_witness :
    get_api_answer "T" (.int 5) (.transportError "boom")
      = .error (.connectionError (connectionErrorMsg "T" (.int 5) "boom")) ∧
    get_api_answer "T" (.int 5) (.response ⟨404, "Not Found", "gone", .none⟩)
      = .error (.apiRequestError (apiRequestErrorMsg 404 "Not Found" "Not Found" "gone")) ∧
    get_api_answer "T" (.int 5) (.response ⟨599, "odd", "busy", .none⟩)
      = .error (.valueError "599 is not a valid HTTPStatus") ∧
    get_api_answer "T" (.int 5) (.response ⟨200, "OK", "body", .dict [("homeworks", .list [])]⟩)
      = .ok (.dict [("homeworks", .list [])]) := by
  refine ⟨?_, ?_, ?_, ?_⟩
  · exact ((claimC9_get_api_answer "T" (.int 5)).1 "boom").1
  · exact ((claimC9_get_api_answer "T" (.int 5)).2.1
      ⟨404, "Not Found", "gone", .none⟩ (by decide) "Not Found" rfl).1
  · exact (claimC9_get_api_answer "T" (.int 5)).2.2.1
      ⟨599, "odd", "busy", .none⟩ (by decide) rfl
  · exact (claimC9_get_api_answer "T" (.int 5)).2.2.2
      ⟨200, "OK", "body", .dict [("homeworks", .list [])]⟩ rfl

/-! ### Claim C1: one shared dedup slot, not two independent ones -/

/-- A response cycle of the C1 scenario: one approved homework `lab1`. -/
def c1body : PyVal :=
  .dict [("homeworks", .list [.dict [("homework_name", .str "lab1"),
          ("status", .str "approved")]]), ("current_date", .int 2000)]

/-- The status message extracted from `c1body`. -/
def c1msg : String :=
  "Изменился статус проверки работы \"lab1\". Работа проверена: ревьюеру всё понравилось. Ура!"

/-- A three-cycle environment trace: status message, transport failure,
same status message again; every delivery succeeds. -/
def c1trace : List CycleEnv :=
  [⟨.response ⟨200, "OK", "", c1body⟩, fun _ => .sent⟩,
   ⟨.transportError "boom", fun _ => .sent⟩,
   ⟨.response ⟨200, "OK", "", c1body⟩, fun _ => .sent⟩]

/-- C1 counterexample: on the trace status/error/same-status the source
delivers the status message twice — cycle 3 compares it against the error
message that overwrote the shared `last_message` slot in cycle 2 — while
the spec's two-slot orchestrator, which compares it only against the
success slot, delivers it once.  The code therefore does not maintain two
independent dedup slots. -/
theorem claimC1_counterexample :
    (runCycles "T" c1trace ⟨.int 1000, ""⟩).2.count c1msg = 2 ∧
    (runCyclesSpec "T" c1trace ⟨.int 1000, "", ""⟩).2.count c1msg = 1 := by
  constructor <;> rfl

/-- C1 as amended: the program maintains a single dedup slot
(`last_message`) shared by the success and failure paths; on a cycle with a
non-empty validated homeworks sequence the extracted message is compared
against that shared slot — i.e. against the last successfully delivered
message, whether that was a status message or an error message — and the
slot is updated only when delivery succeeds. -/
theorem claimC1_amended (token : String) (env : CycleEnv) (st : BotState)
    (resp hw : PyVal) (rest : List PyVal) (msg : String)
    (hf : get_api_answer token st.timestamp env.fetch = .ok resp)
    (hc : check_response resp = .ok (hw :: rest))
    (hp : parse_status hw = .ok msg) :
    (mainCycle token env st).2 = (if msg = st.last_message then [] else [msg]) ∧
    (mainCycle token env st).1.last_message =
      (if msg ≠ st.last_message ∧ send_message (env.send msg) = true then msg
       else st.last_message) := by
  simp only [mainCycle, tryBody, hf, hc, hp]
  by_cases h1 : msg = st.last_message
  · simp [h1]
  · by_cases h2 : send_message (env.send msg) = true
    · simp [h1, h2]
    · simp [h1, h2]

/-- C1 witness: a fresh message against the empty initial slot is attempted
and, being delivered, becomes the slot value. -/
theorem claimC1_witness :
    (mainCycle "T" ⟨.response ⟨200, "OK", "", c1body⟩, fun _ => .sent⟩
      ⟨.int 1000, ""⟩).2 = [c1msg] ∧
    (mainCycle "T" ⟨.response ⟨200, "OK", "", c1body⟩, fun _ => .sent⟩
      ⟨.int 1000, ""⟩).1.last_message = c1msg := by
  have h := claimC1_amended "T"
    ⟨.response ⟨200, "OK", "", c1body⟩, fun _ => .sent⟩ ⟨.int 1000, ""⟩
    c1body (.dict [("homework_name", .str "lab1"), ("status", .str "approved")])
    [] c1msg rfl rfl rfl
  constructor
  · rw [h.1]; rfl
  · rw [h.2]; rfl

/-! ### Claim C2: the failure slot updates only on delivered, not unconditionally -/

/-- C2 counterexample: a cycle whose fetch raises, whose failure message is
new, and whose delivery fails.  The spec says the failure slot is updated
unconditionally after the attempt; the source leaves `last_message` at its
old value (here the initial empty string), so the same failure message is
re-attempted next cycle. -/
theorem claimC2_counterexample :
    (mainCycle "T" ⟨.transportError "boom", fun _ => .telegramError "down"⟩
        ⟨.int 1000, ""⟩).2
      = ["Сбой в работе программы: " ++ connectionErrorMsg "T" (.int 1000) "boom"] ∧
    "Сбой в работе программы: " ++ connectionErrorMsg "T" (.int 1000) "boom" ≠ "" ∧
    (mainCycle "T" ⟨.transportError "boom", fun _ => .telegramError "down"⟩
        ⟨.int 1000, ""⟩).1.last_message = "" := by
  refine ⟨rfl, ?_, rfl⟩
  decide

/-- C2 as amended: when a cycle-level exception is caught and the composed
failure message differs from the notification state, the state is updated
to the failure message only when its delivery succeeds; on delivery failure
it keeps its old value (exactly like the success path). -/
theorem claimC2_amended (token : String) (env : CycleEnv) (st : BotState)
    (e : PyError) (herr : tryBody token env st = .error e) :
    (mainCycle token env st).1.last_message
      = (if "Сбой в работе программы: " ++ errorStr e ≠ st.last_message
            ∧ send_message (env.send ("Сбой в работе программы: " ++ errorStr e)) = true
         then "Сбой в работе программы: " ++ errorStr e
         else st.last_message) := by
  simp only [mainCycle, herr, handleError]
  by_cases h1 : "Сбой в работе программы: " ++ errorStr e ≠ st.last_message
  · by_cases h2 : send_message (env.send ("Сбой в работе программы: " ++ errorStr e)) = true
    · simp [h1, h2]
    · simp [h1, h2]
  · simp [h1]

/-- C2 witness: with delivery succeeding, the failure message becomes the
new slot value. -/
theorem claimC2_witness :
    (mainCycle "T" ⟨.transportError "boom", fun _ => .sent⟩
        ⟨.int 1000, ""⟩).1.last_message
      = "Сбой в работе программы: " ++ connectionErrorMsg "T" (.int 1000) "boom" := by
  rw [claimC2_amended "T" ⟨.transportError "boom", fun _ => .sent⟩ ⟨.int 1000, ""⟩
    (.connectionError (connectionErrorMsg "T" (.int 1000) "boom")) rfl]
  rfl

/-! ### Claim C3: cursor refresh is skipped on empty-homeworks cycles -/

/-- C3 counterexample: a successful cycle with an empty homeworks list and
`current_date` 2000 present leaves the cursor at 1000 — `continue` jumps
over the `timestamp = response.get(...)` line — while the claim requires
the refresh regardless of emptiness. -/
theorem claimC3_counterexample :
    (mainCycle "T"
        ⟨.response ⟨200, "OK", "",
          .dict [("homeworks", .list []), ("current_date", .int 2000)]⟩,
         fun _ => .sent⟩
        ⟨.int 1000, ""⟩).1.timestamp = .int 1000 ∧
    PyVal.int 1000 ≠ PyVal.int 2000 := by
  constructor
  · rfl
  · simp

/-- C3 as amended: the cursor is refreshed from `current_date` (falling
back to its prior value when absent) only on cycles that reach the end of
the success path with a non-empty homeworks sequence; on empty-homeworks
cycles (`continue`) and on exception cycles the cursor is left untouched. -/
theorem claimC3_amended (token : String) (env : CycleEnv) (st : BotState) :
    (∀ resp hw rest msg,
      get_api_answer token st.timestamp env.fetch = .ok resp →
      check_response resp = .ok (hw :: rest) →
      parse_status hw = .ok msg →
      (mainCycle token env st).1.timestamp
        = (resp.get "current_date").getD st.timestamp) ∧
    (∀ resp,
      get_api_answer token st.timestamp env.fetch = .ok resp →
      check_response resp = .ok [] →
      (mainCycle token env st).1.timestamp = st.timestamp) ∧
    (∀ e, tryBody token env st = .error e →
      (mainCycle token env st).1.timestamp = st.timestamp) := by
  refine ⟨?_, ?_, ?_⟩
  · intro resp hw rest msg hf hc hp
    simp only [mainCycle, tryBody, hf, hc, hp]
  · intro resp hf hc
    simp only [mainCycle, tryBody, hf, hc]
  · intro e herr
    simp only [mainCycle, herr]
    exact handleError_timestamp env st e

/-- C3 witness: a non-empty cycle refreshes the cursor to 2000, an
exception cycle leaves it at 1000. -/
theorem claimC3_witness :
    (mainCycle "T" ⟨.response ⟨200, "OK", "", c1body⟩, fun _ => .sent⟩
        ⟨.int 1000, ""⟩).1.timestamp = .int 2000 ∧
    (mainCycle "T" ⟨.transportError "boom", fun _ => .sent⟩
        ⟨.int 1000, ""⟩).1.timestamp = .int 1000 := by
  constructor
  · rw [(claimC3_amended "T" ⟨.response ⟨200, "OK", "", c1body⟩, fun _ => .sent⟩
      ⟨.int 1000, ""⟩).1 c1body
      (.dict [("homework_name", .str "lab1"), ("status", .str "approved")])
      [] c1msg rfl rfl rfl]
    rfl
  · exact (claimC3_amended "T" ⟨.transportError "boom", fun _ => .sent⟩
      ⟨.int 1000, ""⟩).2.2 _ rfl

/-! ### Claim C4: the single catch boundary never lets an exception escape -/

theorem handleErrorE_eq (env : CycleEnv) (st : BotState) (e : PyError) :
    handleErrorE env st e = .ok (handleError env st e) := by
  simp only [handleErrorE, handleError, send_messageE_eq]
  by_cases h1 : "Сбой в работе программы: " ++ errorStr e ≠ st.last_message
  · cases h2 : send_message (env.send ("Сбой в работе программы: " ++ errorStr e)) with
    | true => simp [h1, h2]
    | false => simp [h1, h2]
  · simp [h1]

theorem tryBodyE_eq (token : String) (env : CycleEnv) (st : BotState) :
    tryBodyE token env st = tryBody token env st := by
  cases hga : get_api_answer token st.timestamp env.fetch with
  | error e => simp [tryBodyE, tryBody, hga]
  | ok response =>
    cases hcr : check_response response with
    | error e => simp [tryBodyE, tryBody, hga, hcr]
    | ok homeworks =>
      cases homeworks with
      | nil => simp [tryBodyE, tryBody, hga, hcr]
      | cons hw rest =>
        cases hps : parse_status hw with
        | error e => simp [tryBodyE, tryBody, hga, hcr, hps]
        | ok msg =>
          simp only [tryBodyE, tryBody, hga, hcr, hps, send_messageE_eq]
          by_cases h1 : msg ≠ st.last_message
          · cases h2 : send_message (env.send msg) with
            | true => simp [h1, h2]
            | false => simp [h1, h2]
          · simp [h1]

/-- C4: with every exception of a cycle made visible — including the
provider delivery exception that `bot.send_message` can raise while the
error notification is being sent, which `send_message` itself catches and
converts to `False` — one loop iteration never ends in an uncaught
exception: whatever the cycle's environment does, the iteration completes
with the value `mainCycle` computes, every raised error being caught
exactly once (fetch/validate/extract errors at the orchestrator's
`except Exception`, delivery errors inside `send_message`), and so the
iteration always reaches the unconditional `finally` sleep with a
well-defined successor state. -/
theorem claimC4_no_escape (token : String) (env : CycleEnv) (st : BotState) :
    mainCycleE token env st = .ok (mainCycle token env st) := by
  simp only [mainCycleE, mainCycle, tryBodyE_eq]
  cases tryBody token env st with
  | ok r => rfl
  | error e => exact handleErrorE_eq env st e

/-! ### Claim C5: idempotent delivery across consecutive identical cycles -/

/-- C5: if a cycle extracts a fresh message and delivers it, a following
cycle that extracts the same message skips delivery, so the notifier is
invoked exactly once across both cycles; if the first delivery fails, the
slot keeps its old value and the second cycle attempts the same message
again. -/
theorem claimC5_idempotence (token : String) (env1 env2 : CycleEnv)
    (st : BotState) (resp1 hw1 : PyVal) (r1 : List PyVal) (msg : String)
    (hf1 : get_api_answer token st.timestamp env1.fetch = .ok resp1)
    (hc1 : check_response resp1 = .ok (hw1 :: r1))
    (hp1 : parse_status hw1 = .ok msg)
    (hnew : msg ≠ st.last_message) :
    (env1.send msg = .sent →
      ∀ resp2 hw2 r2,
        get_api_answer token (mainCycle token env1 st).1.timestamp env2.fetch
          = .ok resp2 →
        check_response resp2 = .ok (hw2 :: r2) →
        parse_status hw2 = .ok msg →
        (mainCycle token env1 st).2
            ++ (mainCycle token env2 (mainCycle token env1 st).1).2 = [msg]) ∧
    (∀ em, env1.send msg = .telegramError em →
      (mainCycle token env1 st).1.last_message = st.last_message ∧
      (mainCycle token env1 st).2 = [msg] ∧
      (∀ resp2 hw2 r2,
        get_api_answer token (mainCycle token env1 st).1.timestamp env2.fetch
          = .ok resp2 →
        check_response resp2 = .ok (hw2 :: r2) →
        parse_status hw2 = .ok msg →
        (mainCycle token env2 (mainCycle token env1 st).1).2 = [msg])) := by
  constructor
  · intro hsend resp2 hw2 r2 hf2 hc2 hp2
    have h1 : mainCycle token env1 st
        = (⟨(resp1.get "current_date").getD st.timestamp, msg⟩, [msg]) := by
      simp only [mainCycle, tryBody, hf1, hc1, hp1]
      simp [hnew, send_message, hsend]
    rw [h1] at hf2 ⊢
    simp only [mainCycle, tryBody, hf2, hc2, hp2]
    simp
  · intro em hsend
    have h1 : mainCycle token env1 st
        = (⟨(resp1.get "current_date").getD st.timestamp, st.last_message⟩, [msg]) := by
      simp only [mainCycle, tryBody, hf1, hc1, hp1]
      simp [hnew, send_message, hsend]
    refine ⟨by rw [h1], by rw [h1], ?_⟩
    intro resp2 hw2 r2 hf2 hc2 hp2
    rw [h1] at hf2 ⊢
    simp only [mainCycle, tryBody, hf2, hc2, hp2]
    by_cases h2 : send_message (env2.send msg) = true
    · simp [hnew, h2]
    · simp [hnew, h2]

/-- C5 witness: the same homework on two consecutive cycles with delivery
succeeding produces exactly one delivery attempt across both. -/
theorem claimC5_witness :
    (mainCycle "T" ⟨.response ⟨200, "OK", "", c1body⟩, fun _ => .sent⟩
        ⟨.int 1000, ""⟩).2
      ++ (mainCycle "T" ⟨.response ⟨200, "OK", "", c1body⟩, fun _ => .sent⟩
          (mainCycle "T" ⟨.response ⟨200, "OK", "", c1body⟩, fun _ => .sent⟩
            ⟨.int 1000, ""⟩).1).2 = [c1msg] := by
  exact (claimC5_idempotence "T"
      ⟨.response ⟨200, "OK", "", c1body⟩, fun _ => .sent⟩
      ⟨.response ⟨200, "OK", "", c1body⟩, fun _ => .sent⟩
      ⟨.int 1000, ""⟩ c1body
      (.dict [("homework_name", .str "lab1"), ("status", .str "approved")])
      [] c1msg rfl rfl rfl (by decide)).1 rfl c1body
      (.dict [("homework_name", .str "lab1"), ("status", .str "approved")])
      [] rfl rfl rfl
